import Mathlib

/-!
Shallow embedding of `src/firebase_functions.py` (exam timetable bot,
Firebase helper module): the Document Field Adapter over a Firestore-like
per-user document store, and the Blob Lifecycle Adapter over a bucket-like
object store.

Modelling conventions:
* Firestore values are `FSValue`; a document is an association list
  `FSDoc = List (String × FSValue)`; the `users` collection is
  `Store = List (String × FSDoc)` keyed by user id.
* Python `None` and Firestore `null` are both `FSValue.null`; the
  `firestore.DELETE_FIELD` sentinel is `FSValue.delete`.
* Python exceptions are `PyExc`; a store primitive that can raise returns
  `Except PyExc _`.  A transport/network failure of a primitive call is
  injected through an explicit `Bool` fault flag (one flag per remote
  call site); `fail = false` is the fault-free run.
* A Python function whose body is wrapped in `except Exception` has a
  total return type (no exception can escape); `get_exact_venue`, which
  catches only `KeyError`, keeps the `Except` return type because other
  exceptions escape it.
* Python's `re.sub(r'\W+', '_', s)` matches `\W` Unicode-aware (the
  pattern is a `str`); its word-character class (underscore or Unicode
  alphanumeric) is embedded as an explicit code-point range table taken
  from CPython's `re`.
-/

namespace FirebaseFunctions

/-- Firestore field values, as used by this module. -/
inductive FSValue where
  | null : FSValue
  | str : String → FSValue
  | list : List FSValue → FSValue
  | map : List (String × FSValue) → FSValue
  | delete : FSValue
deriving Repr

/-- A Firestore document: top-level field names to values. -/
abbrev FSDoc := List (String × FSValue)

/-- The `users` collection: user id to document. -/
abbrev Store := List (String × FSDoc)

/-- Python exceptions that the module's store calls can raise. -/
inductive PyExc where
  | keyError : PyExc
  | notFound : PyExc
  | alreadyExists : PyExc
  | transportErr : PyExc
  | fileNotFound : PyExc
deriving Repr, DecidableEq

/-- Association-list lookup (first binding wins). -/
def alookup {α : Type} : List (String × α) → String → Option α
  | [], _ => none
  | (k, v) :: rest, key => if k = key then some v else alookup rest key

/-- Association-list insert/overwrite of one key. -/
def setKey {α : Type} : List (String × α) → String → α → List (String × α)
  | [], k, v => [(k, v)]
  | (k', v') :: rest, k, v =>
    if k' = k then (k, v) :: rest else (k', v') :: setKey rest k v

/-- Association-list removal of a key. -/
def eraseKey {α : Type} : List (String × α) → String → List (String × α)
  | [], _ => []
  | (k', v') :: rest, k =>
    if k' = k then eraseKey rest k else (k', v') :: eraseKey rest k

theorem alookup_setKey_self {α : Type} (l : List (String × α)) (k : String) (v : α) :
    alookup (setKey l k v) k = some v := by
  induction l with
  | nil => simp [alookup, setKey]
  | cons p rest ih =>
    by_cases h : p.1 = k
    · simp [setKey, alookup, h]
    · simp [setKey, alookup, h, ih]

theorem alookup_setKey_ne {α : Type} (l : List (String × α)) (k k' : String) (v : α)
    (hne : k' ≠ k) : alookup (setKey l k v) k' = alookup l k' := by
  induction l with
  | nil => simp [alookup, setKey, Ne.symm hne]
  | cons p rest ih =>
    by_cases h : p.1 = k
    · have hp : p.1 ≠ k' := h ▸ Ne.symm hne
      simp [setKey, h, alookup, Ne.symm hne, hp]
    · by_cases h2 : p.1 = k'
      · simp [setKey, h, alookup, h2, hne]
      · simp [setKey, h, alookup, h2, ih]

theorem alookup_eraseKey_self {α : Type} (l : List (String × α)) (k : String) :
    alookup (eraseKey l k) k = none := by
  induction l with
  | nil => simp [alookup, eraseKey]
  | cons p rest ih =>
    by_cases h : p.1 = k
    · simp [eraseKey, h, ih]
    · simp [eraseKey, alookup, h, ih]

theorem alookup_eraseKey_none {α : Type} (l : List (String × α)) (k k' : String)
    (h : alookup l k = none) : alookup (eraseKey l k') k = none := by
  induction l with
  | nil => simpa [eraseKey] using h
  | cons p rest ih =>
    by_cases hp : p.1 = k
    · simp [alookup, hp] at h
    · simp only [alookup, hp, if_false] at h
      by_cases hq : p.1 = k'
      · simp [eraseKey, hq, ih h]
      · simp [eraseKey, alookup, hq, hp, ih h]

/-! ### `re.sub(r'\W+', '_', s)` -/

/-- Sorted-range membership with early exit (ranges in increasing order). -/
def inRanges (n : Nat) : List (Nat × Nat) → Bool
  | [] => false
  | (lo, hi) :: rest =>
    if n < lo then false else if n ≤ hi then true else inRanges n rest

/-- The word-character ranges of Python's Unicode-aware `\w` as matched by
CPython's `re` on `str` patterns: `'_'` together with the Unicode
alphanumerics, as contiguous code-point ranges in increasing order
(generated from the regex engine's own classification). -/
def pyWordRanges : List (Nat × Nat) := [
  (48, 57), (65, 90), (95, 95), (97, 122), (170, 170),
  (178, 179), (181, 181), (185, 186), (188, 190), (192, 214),
  (216, 246), (248, 705), (710, 721), (736, 740), (748, 748),
  (750, 750), (880, 884), (886, 887), (890, 893), (895, 895),
  (902, 902), (904, 906), (908, 908), (910, 929), (931, 1013),
  (1015, 1153), (1162, 1327), (1329, 1366), (1369, 1369), (1376, 1416),
  (1488, 1514), (1519, 1522), (1568, 1610), (1632, 1641), (1646, 1647),
  (1649, 1747), (1749, 1749), (1765, 1766), (1774, 1788), (1791, 1791),
  (1808, 1808), (1810, 1839), (1869, 1957), (1969, 1969), (1984, 2026),
  (2036, 2037), (2042, 2042), (2048, 2069), (2074, 2074), (2084, 2084),
  (2088, 2088), (2112, 2136), (2144, 2154), (2160, 2183), (2185, 2190),
  (2208, 2249), (2308, 2361), (2365, 2365), (2384, 2384), (2392, 2401),
  (2406, 2415), (2417, 2432), (2437, 2444), (2447, 2448), (2451, 2472),
  (2474, 2480), (2482, 2482), (2486, 2489), (2493, 2493), (2510, 2510),
  (2524, 2525), (2527, 2529), (2534, 2545), (2548, 2553), (2556, 2556),
  (2565, 2570), (2575, 2576), (2579, 2600), (2602, 2608), (2610, 2611),
  (2613, 2614), (2616, 2617), (2649, 2652), (2654, 2654), (2662, 2671),
  (2674, 2676), (2693, 2701), (2703, 2705), (2707, 2728), (2730, 2736),
  (2738, 2739), (2741, 2745), (2749, 2749), (2768, 2768), (2784, 2785),
  (2790, 2799), (2809, 2809), (2821, 2828), (2831, 2832), (2835, 2856),
  (2858, 2864), (2866, 2867), (2869, 2873), (2877, 2877), (2908, 2909),
  (2911, 2913), (2918, 2927), (2929, 2935), (2947, 2947), (2949, 2954),
  (2958, 2960), (2962, 2965), (2969, 2970), (2972, 2972), (2974, 2975),
  (2979, 2980), (2984, 2986), (2990, 3001), (3024, 3024), (3046, 3058),
  (3077, 3084), (3086, 3088), (3090, 3112), (3114, 3129), (3133, 3133),
  (3160, 3162), (3165, 3165), (3168, 3169), (3174, 3183), (3192, 3198),
  (3200, 3200), (3205, 3212), (3214, 3216), (3218, 3240), (3242, 3251),
  (3253, 3257), (3261, 3261), (3293, 3294), (3296, 3297), (3302, 3311),
  (3313, 3314), (3332, 3340), (3342, 3344), (3346, 3386), (3389, 3389),
  (3406, 3406), (3412, 3414), (3416, 3425), (3430, 3448), (3450, 3455),
  (3461, 3478), (3482, 3505), (3507, 3515), (3517, 3517), (3520, 3526),
  (3558, 3567), (3585, 3632), (3634, 3635), (3648, 3654), (3664, 3673),
  (3713, 3714), (3716, 3716), (3718, 3722), (3724, 3747), (3749, 3749),
  (3751, 3760), (3762, 3763), (3773, 3773), (3776, 3780), (3782, 3782),
  (3792, 3801), (3804, 3807), (3840, 3840), (3872, 3891), (3904, 3911),
  (3913, 3948), (3976, 3980), (4096, 4138), (4159, 4169), (4176, 4181),
  (4186, 4189), (4193, 4193), (4197, 4198), (4206, 4208), (4213, 4225),
  (4238, 4238), (4240, 4249), (4256, 4293), (4295, 4295), (4301, 4301),
  (4304, 4346), (4348, 4680), (4682, 4685), (4688, 4694), (4696, 4696),
  (4698, 4701), (4704, 4744), (4746, 4749), (4752, 4784), (4786, 4789),
  (4792, 4798), (4800, 4800), (4802, 4805), (4808, 4822), (4824, 4880),
  (4882, 4885), (4888, 4954), (4969, 4988), (4992, 5007), (5024, 5109),
  (5112, 5117), (5121, 5740), (5743, 5759), (5761, 5786), (5792, 5866),
  (5870, 5880), (5888, 5905), (5919, 5937), (5952, 5969), (5984, 5996),
  (5998, 6000), (6016, 6067), (6103, 6103), (6108, 6108), (6112, 6121),
  (6128, 6137), (6160, 6169), (6176, 6264), (6272, 6276), (6279, 6312),
  (6314, 6314), (6320, 6389), (6400, 6430), (6470, 6509), (6512, 6516),
  (6528, 6571), (6576, 6601), (6608, 6618), (6656, 6678), (6688, 6740),
  (6784, 6793), (6800, 6809), (6823, 6823), (6917, 6963), (6981, 6988),
  (6992, 7001), (7043, 7072), (7086, 7141), (7168, 7203), (7232, 7241),
  (7245, 7293), (7296, 7304), (7312, 7354), (7357, 7359), (7401, 7404),
  (7406, 7411), (7413, 7414), (7418, 7418), (7424, 7615), (7680, 7957),
  (7960, 7965), (7968, 8005), (8008, 8013), (8016, 8023), (8025, 8025),
  (8027, 8027), (8029, 8029), (8031, 8061), (8064, 8116), (8118, 8124),
  (8126, 8126), (8130, 8132), (8134, 8140), (8144, 8147), (8150, 8155),
  (8160, 8172), (8178, 8180), (8182, 8188), (8304, 8305), (8308, 8313),
  (8319, 8329), (8336, 8348), (8450, 8450), (8455, 8455), (8458, 8467),
  (8469, 8469), (8473, 8477), (8484, 8484), (8486, 8486), (8488, 8488),
  (8490, 8493), (8495, 8505), (8508, 8511), (8517, 8521), (8526, 8526),
  (8528, 8585), (9312, 9371), (9450, 9471), (10102, 10131), (11264, 11492),
  (11499, 11502), (11506, 11507), (11517, 11517), (11520, 11557), (11559, 11559),
  (11565, 11565), (11568, 11623), (11631, 11631), (11648, 11670), (11680, 11686),
  (11688, 11694), (11696, 11702), (11704, 11710), (11712, 11718), (11720, 11726),
  (11728, 11734), (11736, 11742), (11823, 11823), (12293, 12295), (12321, 12329),
  (12337, 12341), (12344, 12348), (12353, 12438), (12445, 12447), (12449, 12538),
  (12540, 12543), (12549, 12591), (12593, 12686), (12690, 12693), (12704, 12735),
  (12784, 12799), (12832, 12841), (12872, 12879), (12881, 12895), (12928, 12937),
  (12977, 12991), (13312, 19903), (19968, 42124), (42192, 42237), (42240, 42508),
  (42512, 42539), (42560, 42606), (42623, 42653), (42656, 42735), (42775, 42783),
  (42786, 42888), (42891, 42954), (42960, 42961), (42963, 42963), (42965, 42969),
  (42994, 43009), (43011, 43013), (43015, 43018), (43020, 43042), (43056, 43061),
  (43072, 43123), (43138, 43187), (43216, 43225), (43250, 43255), (43259, 43259),
  (43261, 43262), (43264, 43301), (43312, 43334), (43360, 43388), (43396, 43442),
  (43471, 43481), (43488, 43492), (43494, 43518), (43520, 43560), (43584, 43586),
  (43588, 43595), (43600, 43609), (43616, 43638), (43642, 43642), (43646, 43695),
  (43697, 43697), (43701, 43702), (43705, 43709), (43712, 43712), (43714, 43714),
  (43739, 43741), (43744, 43754), (43762, 43764), (43777, 43782), (43785, 43790),
  (43793, 43798), (43808, 43814), (43816, 43822), (43824, 43866), (43868, 43881),
  (43888, 44002), (44016, 44025), (44032, 55203), (55216, 55238), (55243, 55291),
  (63744, 64109), (64112, 64217), (64256, 64262), (64275, 64279), (64285, 64285),
  (64287, 64296), (64298, 64310), (64312, 64316), (64318, 64318), (64320, 64321),
  (64323, 64324), (64326, 64433), (64467, 64829), (64848, 64911), (64914, 64967),
  (65008, 65019), (65136, 65140), (65142, 65276), (65296, 65305), (65313, 65338),
  (65345, 65370), (65382, 65470), (65474, 65479), (65482, 65487), (65490, 65495),
  (65498, 65500), (65536, 65547), (65549, 65574), (65576, 65594), (65596, 65597),
  (65599, 65613), (65616, 65629), (65664, 65786), (65799, 65843), (65856, 65912),
  (65930, 65931), (66176, 66204), (66208, 66256), (66273, 66299), (66304, 66339),
  (66349, 66378), (66384, 66421), (66432, 66461), (66464, 66499), (66504, 66511),
  (66513, 66517), (66560, 66717), (66720, 66729), (66736, 66771), (66776, 66811),
  (66816, 66855), (66864, 66915), (66928, 66938), (66940, 66954), (66956, 66962),
  (66964, 66965), (66967, 66977), (66979, 66993), (66995, 67001), (67003, 67004),
  (67072, 67382), (67392, 67413), (67424, 67431), (67456, 67461), (67463, 67504),
  (67506, 67514), (67584, 67589), (67592, 67592), (67594, 67637), (67639, 67640),
  (67644, 67644), (67647, 67669), (67672, 67702), (67705, 67742), (67751, 67759),
  (67808, 67826), (67828, 67829), (67835, 67867), (67872, 67897), (67968, 68023),
  (68028, 68047), (68050, 68096), (68112, 68115), (68117, 68119), (68121, 68149),
  (68160, 68168), (68192, 68222), (68224, 68255), (68288, 68295), (68297, 68324),
  (68331, 68335), (68352, 68405), (68416, 68437), (68440, 68466), (68472, 68497),
  (68521, 68527), (68608, 68680), (68736, 68786), (68800, 68850), (68858, 68899),
  (68912, 68921), (69216, 69246), (69248, 69289), (69296, 69297), (69376, 69415),
  (69424, 69445), (69457, 69460), (69488, 69505), (69552, 69579), (69600, 69622),
  (69635, 69687), (69714, 69743), (69745, 69746), (69749, 69749), (69763, 69807),
  (69840, 69864), (69872, 69881), (69891, 69926), (69942, 69951), (69956, 69956),
  (69959, 69959), (69968, 70002), (70006, 70006), (70019, 70066), (70081, 70084),
  (70096, 70106), (70108, 70108), (70113, 70132), (70144, 70161), (70163, 70187),
  (70272, 70278), (70280, 70280), (70282, 70285), (70287, 70301), (70303, 70312),
  (70320, 70366), (70384, 70393), (70405, 70412), (70415, 70416), (70419, 70440),
  (70442, 70448), (70450, 70451), (70453, 70457), (70461, 70461), (70480, 70480),
  (70493, 70497), (70656, 70708), (70727, 70730), (70736, 70745), (70751, 70753),
  (70784, 70831), (70852, 70853), (70855, 70855), (70864, 70873), (71040, 71086),
  (71128, 71131), (71168, 71215), (71236, 71236), (71248, 71257), (71296, 71338),
  (71352, 71352), (71360, 71369), (71424, 71450), (71472, 71483), (71488, 71494),
  (71680, 71723), (71840, 71922), (71935, 71942), (71945, 71945), (71948, 71955),
  (71957, 71958), (71960, 71983), (71999, 71999), (72001, 72001), (72016, 72025),
  (72096, 72103), (72106, 72144), (72161, 72161), (72163, 72163), (72192, 72192),
  (72203, 72242), (72250, 72250), (72272, 72272), (72284, 72329), (72349, 72349),
  (72368, 72440), (72704, 72712), (72714, 72750), (72768, 72768), (72784, 72812),
  (72818, 72847), (72960, 72966), (72968, 72969), (72971, 73008), (73030, 73030),
  (73040, 73049), (73056, 73061), (73063, 73064), (73066, 73097), (73112, 73112),
  (73120, 73129), (73440, 73458), (73648, 73648), (73664, 73684), (73728, 74649),
  (74752, 74862), (74880, 75075), (77712, 77808), (77824, 78894), (82944, 83526),
  (92160, 92728), (92736, 92766), (92768, 92777), (92784, 92862), (92864, 92873),
  (92880, 92909), (92928, 92975), (92992, 92995), (93008, 93017), (93019, 93025),
  (93027, 93047), (93053, 93071), (93760, 93846), (93952, 94026), (94032, 94032),
  (94099, 94111), (94176, 94177), (94179, 94179), (94208, 100343), (100352, 101589),
  (101632, 101640), (110576, 110579), (110581, 110587), (110589, 110590), (110592, 110882),
  (110928, 110930), (110948, 110951), (110960, 111355), (113664, 113770), (113776, 113788),
  (113792, 113800), (113808, 113817), (119520, 119539), (119648, 119672), (119808, 119892),
  (119894, 119964), (119966, 119967), (119970, 119970), (119973, 119974), (119977, 119980),
  (119982, 119993), (119995, 119995), (119997, 120003), (120005, 120069), (120071, 120074),
  (120077, 120084), (120086, 120092), (120094, 120121), (120123, 120126), (120128, 120132),
  (120134, 120134), (120138, 120144), (120146, 120485), (120488, 120512), (120514, 120538),
  (120540, 120570), (120572, 120596), (120598, 120628), (120630, 120654), (120656, 120686),
  (120688, 120712), (120714, 120744), (120746, 120770), (120772, 120779), (120782, 120831),
  (122624, 122654), (123136, 123180), (123191, 123197), (123200, 123209), (123214, 123214),
  (123536, 123565), (123584, 123627), (123632, 123641), (124896, 124902), (124904, 124907),
  (124909, 124910), (124912, 124926), (124928, 125124), (125127, 125135), (125184, 125251),
  (125259, 125259), (125264, 125273), (126065, 126123), (126125, 126127), (126129, 126132),
  (126209, 126253), (126255, 126269), (126464, 126467), (126469, 126495), (126497, 126498),
  (126500, 126500), (126503, 126503), (126505, 126514), (126516, 126519), (126521, 126521),
  (126523, 126523), (126530, 126530), (126535, 126535), (126537, 126537), (126539, 126539),
  (126541, 126543), (126545, 126546), (126548, 126548), (126551, 126551), (126553, 126553),
  (126555, 126555), (126557, 126557), (126559, 126559), (126561, 126562), (126564, 126564),
  (126567, 126570), (126572, 126578), (126580, 126583), (126585, 126588), (126590, 126590),
  (126592, 126601), (126603, 126619), (126625, 126627), (126629, 126633), (126635, 126651),
  (127232, 127244), (130032, 130041), (131072, 173791), (173824, 177976), (177984, 178205),
  (178208, 183969), (183984, 191456), (194560, 195101), (196608, 201546)]

/-- Membership in Python's `\w` class for `str` patterns (Unicode-aware):
`[0-9A-Z_a-z]` plus every non-ASCII Unicode alphanumeric (e.g. `'é'`). -/
def isWordChar (c : Char) : Bool :=
  inRanges c.toNat pyWordRanges

/-- The ASCII class `[A-Za-z0-9_]`: the narrower characterization the spec's
prose uses.  `isWordChar` — the class the code's `re.sub` actually uses —
agrees with it on ASCII but is strictly wider beyond ASCII. -/
def isAsciiWordChar (c : Char) : Bool :=
  c.isAlphanum || c == '_'

/-- `re.sub(r'\W+', '_', ·)` scanned left to right.  The Boolean records
whether the scanner is inside a run of non-word characters: the first
character of a run emits the single `'_'`, the rest of the run emits
nothing. -/
def sanitizeGo : Bool → List Char → List Char
  | _, [] => []
  | true, c :: rest =>
    if isWordChar c then c :: sanitizeGo false rest
    else sanitizeGo true rest
  | false, c :: rest =>
    if isWordChar c then c :: sanitizeGo false rest
    else '_' :: sanitizeGo true rest

/-- `re.sub(r'\W+', '_', ·)` on a character list: each maximal run of
non-word characters becomes a single underscore. -/
def sanitizeList (l : List Char) : List Char :=
  sanitizeGo false l

/-- `re.sub(r'\W+', '_', s)`, the sanitization the module applies to every
raw course label before using it as a field name. -/
def sanitize (s : String) : String :=
  (sanitizeList s.toList).asString

/-! ### Firestore field paths

Firestore's `update` and `DocumentSnapshot.get` interpret a string key as a
dotted field path; `splitDots` is that splitting. -/

/-- Split a character list on `'.'` (Firestore field-path separator). -/
def splitDots : List Char → List (List Char)
  | [] => [[]]
  | c :: rest =>
    if c = '.' then [] :: splitDots rest
    else
      match splitDots rest with
      | [] => [[c]]
      | seg :: segs => (c :: seg) :: segs

/-- Split a string key into its field-path segments. -/
def splitDotsStr (s : String) : List String :=
  (splitDots s.toList).map List.asString

/-- `DocumentSnapshot.get` resolution of a field path inside a document;
`none` models the `KeyError` the Python client raises on a missing path. -/
def getPath : FSDoc → List String → Option FSValue
  | _, [] => none
  | doc, [k] => alookup doc k
  | doc, k :: k2 :: rest =>
    match alookup doc k with
    | some (FSValue.map m) => getPath m (k2 :: rest)
    | _ => none

/-- Interpret `none`/non-map as an empty nested map, the way Firestore's
partial update materialises missing intermediate structure. -/
def asMap : Option FSValue → FSDoc
  | some (FSValue.map m) => m
  | _ => []

/-- Write `v` at a field path inside a document, creating intermediate maps;
the `DELETE_FIELD` sentinel at the final segment removes the key. -/
def setPath : FSDoc → List String → FSValue → FSDoc
  | doc, [], _ => doc
  | doc, [k], FSValue.delete => eraseKey doc k
  | doc, [k], v => setKey doc k v
  | doc, k :: k2 :: rest, v =>
    setKey doc k (FSValue.map (setPath (asMap (alookup doc k)) (k2 :: rest) v))

/-- Apply an `update(...)` dictionary: each key is a dotted field path. -/
def applyUpdates (doc : FSDoc) (data : List (String × FSValue)) : FSDoc :=
  data.foldl (fun d p => setPath d (splitDotsStr p.1) p.2) doc

/-! ### Store primitives (the Firestore client calls the module makes) -/

/-- `db.collection('users').document(uid).get()`: returns the document if it
exists; a transport failure raises. -/
def docGet (fail : Bool) (store : Store) (uid : String) :
    Except PyExc (Option FSDoc) :=
  if fail then .error .transportErr else .ok (alookup store uid)

/-- `doc_ref.update(data)`: partial field-path update; raises NotFound when
the document is absent, or on transport failure. -/
def docUpdate (fail : Bool) (store : Store) (uid : String)
    (data : List (String × FSValue)) : Except PyExc Store :=
  if fail then .error .transportErr
  else
    match alookup store uid with
    | none => .error .notFound
    | some doc => .ok (setKey store uid (applyUpdates doc data))

/-- `doc_ref.create(document_data)`: creates the document; raises
AlreadyExists when it is present, or on transport failure. -/
def docCreate (fail : Bool) (store : Store) (uid : String) (data : FSDoc) :
    Except PyExc Store :=
  if fail then .error .transportErr
  else
    match alookup store uid with
    | some _ => .error .alreadyExists
    | none => .ok (setKey store uid data)

/-! ### Document Field Adapter (`firebase_functions.py`) -/

/-- `get_course_code(user_id, course)`: sanitize, read the document; if it
exists, `doc.get(f'{sanitized}.course_code')` (KeyError on a missing path);
else `None`.  `except Exception` converts any raise to `None`. -/
def get_course_code (fail : Bool) (store : Store) (user_id course : String) :
    FSValue :=
  let body : Except PyExc FSValue :=
    match docGet fail store user_id with
    | .error e => .error e
    | .ok none => .ok .null
    | .ok (some doc) =>
      match getPath doc (splitDotsStr (sanitize course ++ ".course_code")) with
      | none => .error .keyError
      | some v => .ok v
  match body with
  | .ok v => v
  | .error _ => .null

/-- `set_course_code(user_id, course, course_code)`: sanitize, then
`update({f'{sanitized}.course_code': course_code})`; `except Exception`
leaves the store unchanged on any raise. -/
def set_course_code (fail : Bool) (store : Store) (user_id course : String)
    (course_code : FSValue) : Store :=
  match docUpdate fail store user_id
      [(sanitize course ++ ".course_code", course_code)] with
  | .ok s => s
  | .error _ => store

/-- `get_saved_exams_details(user_id)`: read the document, return
`doc.to_dict()` if it exists, else `None`; `except Exception` → `None`. -/
def get_saved_exams_details (fail : Bool) (store : Store) (user_id : String) :
    Option FSDoc :=
  match docGet fail store user_id with
  | .ok (some doc) => some doc
  | .ok none => none
  | .error _ => none

/-- `save_exams_details(user_id, course, course_info)`: read the document;
if it exists, `update({sanitized: course_info})`; otherwise
`create(document_data={sanitized: course_info})`; `except Exception` leaves
the store unchanged on any raise. -/
def save_exams_details (failGet failWrite : Bool) (store : Store)
    (user_id course : String) (course_info : FSDoc) : Store :=
  let body : Except PyExc Store :=
    match docGet failGet store user_id with
    | .error e => .error e
    | .ok (some _) =>
      docUpdate failWrite store user_id
        [(sanitize course, FSValue.map course_info)]
    | .ok none =>
      docCreate failWrite store user_id
        [(sanitize course, FSValue.map course_info)]
  match body with
  | .ok s => s
  | .error _ => store

/-- `get_exams_venue(user_id)`: read the document; if it exists,
`doc.get('All_Exams_Venue')`; else `None`; `except Exception` → `None`. -/
def get_exams_venue (fail : Bool) (store : Store) (user_id : String) :
    FSValue :=
  let body : Except PyExc FSValue :=
    match docGet fail store user_id with
    | .error e => .error e
    | .ok none => .ok .null
    | .ok (some doc) =>
      match getPath doc (splitDotsStr "All_Exams_Venue") with
      | none => .error .keyError
      | some v => .ok v
  match body with
  | .ok v => v
  | .error _ => .null

/-- `set_exact_venue(user_id, course, exact_venue)`: sanitize, then
`update({f'{sanitized}.Exact_Exams_Venue': exact_venue})`;
`except Exception` leaves the store unchanged on any raise. -/
def set_exact_venue (fail : Bool) (store : Store) (user_id course : String)
    (exact_venue : FSValue) : Store :=
  match docUpdate fail store user_id
      [(sanitize course ++ ".Exact_Exams_Venue", exact_venue)] with
  | .ok s => s
  | .error _ => store

/-- `get_exact_venue(user_id, course)`: sanitize, read the document; if it
exists, `doc.get(f'{sanitized}.Exact_Exams_Venue')`; else `None`.  The
Python `try` is closed by `except KeyError` ONLY, so any exception other
than `KeyError` (e.g. a transport failure in `doc_ref.get()`) escapes to
the caller — hence the `Except` return type. -/
def get_exact_venue (fail : Bool) (store : Store) (user_id course : String) :
    Except PyExc FSValue :=
  let body : Except PyExc FSValue :=
    match docGet fail store user_id with
    | .error e => .error e
    | .ok none => .ok .null
    | .ok (some doc) =>
      match getPath doc
          (splitDotsStr (sanitize course ++ ".Exact_Exams_Venue")) with
      | none => .error .keyError
      | some v => .ok v
  match body with
  | .error .keyError => .ok .null
  | r => r

/-- `set_no_id_venues(user_id, course, no_id_venue)`: sanitize; when the
list is non-empty, `update({f'{sanitized}.No_ID_Venues': no_id_venue})`;
when it is empty, `update({f'{sanitized}.No_ID_Venues': None})` — an
explicit stored null, not `[]`.  `except Exception` leaves the store
unchanged on any raise. -/
def set_no_id_venues (fail : Bool) (store : Store) (user_id course : String)
    (no_id_venue : List FSValue) : Store :=
  let body : Except PyExc Store :=
    if no_id_venue.length > 0 then
      docUpdate fail store user_id
        [(sanitize course ++ ".No_ID_Venues", FSValue.list no_id_venue)]
    else
      docUpdate fail store user_id
        [(sanitize course ++ ".No_ID_Venues", FSValue.null)]
  match body with
  | .ok s => s
  | .error _ => store

/-- `get_no_id_venues(user_id, course)`: sanitize, read the document; if it
exists, `doc.get(f'{sanitized}.No_ID_Venues')`; else `None`;
`except Exception` → `None` (the handler falls through, returning `None`). -/
def get_no_id_venues (fail : Bool) (store : Store) (user_id course : String) :
    FSValue :=
  let body : Except PyExc FSValue :=
    match docGet fail store user_id with
    | .error e => .error e
    | .ok none => .ok .null
    | .ok (some doc) =>
      match getPath doc
          (splitDotsStr (sanitize course ++ ".No_ID_Venues")) with
      | none => .error .keyError
      | some v => .ok v
  match body with
  | .ok v => v
  | .error _ => .null

/-- The `for course in courses:` loop of `delete_exams_details`: one
`update({course: firestore.DELETE_FIELD})` per key; the first raise aborts
the loop (caught by the enclosing `except`), keeping the partial store. -/
def deleteLoop (fail : Bool) (store : Store) (user_id : String) :
    List String → Store × Bool
  | [] => (store, true)
  | k :: ks =>
    match docUpdate fail store user_id [(k, FSValue.delete)] with
    | .error _ => (store, false)
    | .ok s => deleteLoop fail s user_id ks

/-- `delete_exams_details(user_id)`: read the whole record via
`get_saved_exams_details`; `if not exams_details: return None` (absent or
empty → no-op); otherwise delete every top-level key with `DELETE_FIELD`;
`except Exception` swallows any raise, keeping the partial store. -/
def delete_exams_details (failGet failUpd : Bool) (store : Store)
    (user_id : String) : Store :=
  match get_saved_exams_details failGet store user_id with
  | none => store
  | some doc =>
    if doc.isEmpty then store
    else (deleteLoop failUpd store user_id (doc.map Prod.fst)).1

/-! ### Blob Lifecycle Adapter -/

/-- The world the blob functions touch: the local filesystem (paths of
existing files) and the bucket (object path ↦ is-public flag). -/
structure BlobWorld where
  localFiles : List String
  remote : List (String × Bool)
deriving Repr

/-- `blob.public_url` for an object path in the configured bucket. -/
def publicUrl (objectPath : String) : String :=
  "https://storage.googleapis.com/ug-exams-bot.appspot.com/" ++ objectPath

/-- Remove a path from the local filesystem (`os.remove`). -/
def removeFile : List String → String → List String
  | [], _ => []
  | f :: rest, p => if f = p then removeFile rest p else f :: removeFile rest p

/-- `upload_screenshot_to_firebase(local_file_path, remote_file_name)`:
upload to `screenshots/{remote}`, `make_public`, take `public_url`, then
`os.remove(local)`; `except Exception` logs and falls through to `None`,
keeping whatever partial remote effects already happened and leaving the
local file in place. -/
def upload_screenshot_to_firebase (failUpload failPublic : Bool)
    (w : BlobWorld) (local_file_path remote_file_name : String) :
    BlobWorld × Option String :=
  let path := "screenshots/" ++ remote_file_name
  if failUpload then (w, none)
  else if local_file_path ∈ w.localFiles then
    let w1 : BlobWorld := { w with remote := setKey w.remote path false }
    if failPublic then (w1, none)
    else
      let w2 : BlobWorld := { w1 with remote := setKey w1.remote path true }
      let url := publicUrl path
      if local_file_path ∈ w2.localFiles then
        ({ w2 with localFiles := removeFile w2.localFiles local_file_path },
          some url)
      else (w2, none)
  else (w, none)

/-- `upload_calendar_to_firebase(local_file_path, remote_file_name)`: the
same body as the screenshot variant with the `calendars/` prefix. -/
def upload_calendar_to_firebase (failUpload failPublic : Bool)
    (w : BlobWorld) (local_file_path remote_file_name : String) :
    BlobWorld × Option String :=
  let path := "calendars/" ++ remote_file_name
  if failUpload then (w, none)
  else if local_file_path ∈ w.localFiles then
    let w1 : BlobWorld := { w with remote := setKey w.remote path false }
    if failPublic then (w1, none)
    else
      let w2 : BlobWorld := { w1 with remote := setKey w1.remote path true }
      let url := publicUrl path
      if local_file_path ∈ w2.localFiles then
        ({ w2 with localFiles := removeFile w2.localFiles local_file_path },
          some url)
      else (w2, none)
  else (w, none)

/-- Modelled from the spec (refinement target for the equivalence claim):
`uploadArtifact(localPath, remoteName, namespace)` — upload to
`{namespace}/{remoteName}`, make public, return the durable URL, delete the
local file only on full success. -/
def uploadArtifact (ns : String) (failUpload failPublic : Bool)
    (w : BlobWorld) (local_file_path remote_file_name : String) :
    BlobWorld × Option String :=
  let path := ns ++ "/" ++ remote_file_name
  if failUpload then (w, none)
  else if local_file_path ∈ w.localFiles then
    let w1 : BlobWorld := { w with remote := setKey w.remote path false }
    if failPublic then (w1, none)
    else
      let w2 : BlobWorld := { w1 with remote := setKey w1.remote path true }
      let url := publicUrl path
      if local_file_path ∈ w2.localFiles then
        ({ w2 with localFiles := removeFile w2.localFiles local_file_path },
          some url)
      else (w2, none)
  else (w, none)

/-- `delete_from_firebase_storage(remote_file_name)`: `blob.delete()` on
`screenshots/{remote}` raises NotFound when the object is absent (or a
transport error); `except Exception` logs and swallows it. -/
def delete_from_firebase_storage (fail : Bool) (w : BlobWorld)
    (remote_file_name : String) : BlobWorld :=
  let path := "screenshots/" ++ remote_file_name
  let body : Except PyExc BlobWorld :=
    if fail then .error .transportErr
    else
      match alookup w.remote path with
      | none => .error .notFound
      | some _ => .ok { w with remote := eraseKey w.remote path }
  match body with
  | .ok w' => w'
  | .error _ => w

/-! ### Lemmas about `sanitizeList` -/

theorem sanitizeGo_mem_word (l : List Char) :
    ∀ b, ∀ c ∈ sanitizeGo b l, isWordChar c := by
  induction l with
  | nil => intro b c hc; cases b <;> simp [sanitizeGo] at hc
  | cons a rest ih =>
    intro b c hc
    by_cases ha : isWordChar a
    · cases b <;> simp only [sanitizeGo, if_pos ha] at hc <;>
        (rcases List.mem_cons.mp hc with h1 | h1
         · exact h1 ▸ ha
         · exact ih false c h1)
    · cases b with
      | true =>
        simp only [sanitizeGo, if_neg ha] at hc
        exact ih true c hc
      | false =>
        simp only [sanitizeGo, if_neg ha] at hc
        rcases List.mem_cons.mp hc with h1 | h1
        · subst h1; decide
        · exact ih true c h1

theorem sanitizeList_mem_word (l : List Char) :
    ∀ c ∈ sanitizeList l, isWordChar c :=
  sanitizeGo_mem_word l false

theorem sanitizeList_of_word (l : List Char) (h : ∀ c ∈ l, isWordChar c) :
    sanitizeList l = l := by
  induction l with
  | nil => rfl
  | cons c rest ih =>
    have hc : isWordChar c := h c (List.mem_cons_self c rest)
    show sanitizeGo false (c :: rest) = c :: rest
    simp only [sanitizeGo, if_pos hc]
    exact congrArg _ (ih fun d hd => h d (List.mem_cons_of_mem c hd))

theorem sanitizeList_idem (l : List Char) :
    sanitizeList (sanitizeList l) = sanitizeList l :=
  sanitizeList_of_word _ (sanitizeList_mem_word l)

theorem dropWhile_nonword_append (r v : List Char)
    (hr : ∀ c ∈ r, ¬ isWordChar c)
    (hv : ∀ c, v.head? = some c → isWordChar c) :
    (r ++ v).dropWhile (fun d => !isWordChar d) = v := by
  induction r with
  | nil =>
    cases v with
    | nil => rfl
    | cons a v' =>
      have : isWordChar a := hv a rfl
      simp [List.dropWhile_cons_of_neg, this]
  | cons c r' ih =>
    have hc : ¬ isWordChar c := hr c (List.mem_cons_self c r')
    rw [List.cons_append, List.dropWhile_cons_of_pos (by simpa using hc)]
    exact ih fun d hd => hr d (List.mem_cons_of_mem c hd)

/-- Inside a run, the scanner just drops the rest of the run and resumes. -/
theorem sanitizeGo_true_eq (l : List Char) :
    sanitizeGo true l
      = sanitizeGo false (l.dropWhile (fun d => !isWordChar d)) := by
  induction l with
  | nil => rfl
  | cons a rest ih =>
    by_cases ha : isWordChar a
    · rw [List.dropWhile_cons_of_neg (by simpa using ha)]
      simp only [sanitizeGo, if_pos ha]
    · rw [List.dropWhile_cons_of_pos (by simpa using ha)]
      simp only [sanitizeGo, if_neg ha]
      exact ih

theorem sanitizeGo_collapse :
    ∀ (u r v : List Char) (b : Bool),
      (∀ c, u.getLast? = some c → isWordChar c) →
      (b = true → u ≠ []) →
      r ≠ [] → (∀ c ∈ r, ¬ isWordChar c) →
      (∀ c, v.head? = some c → isWordChar c) →
      sanitizeGo b (u ++ r ++ v)
        = sanitizeGo b u ++ '_' :: sanitizeGo false v := by
  intro u
  induction u with
  | nil =>
    intro r v b hu hb hr1 hr2 hv
    cases b with
    | true => exact absurd rfl (hb rfl)
    | false =>
      cases r with
      | nil => exact absurd rfl hr1
      | cons c r' =>
        have hc : ¬ isWordChar c := hr2 c (List.mem_cons_self c r')
        simp only [List.nil_append, List.cons_append, sanitizeGo, if_neg hc,
          List.append_eq]
        rw [sanitizeGo_true_eq, dropWhile_nonword_append r' v
          (fun d hd => hr2 d (List.mem_cons_of_mem c hd)) hv]
  | cons a u' ih =>
    intro r v b hu hb hr1 hr2 hv
    have hu' : ∀ c, u'.getLast? = some c → isWordChar c := fun c hc =>
      hu c (List.mem_getLast?_cons hc)
    by_cases ha : isWordChar a
    · have key := ih r v false hu' (fun h => absurd h (by decide)) hr1 hr2 hv
      cases b <;> simp only [List.cons_append, sanitizeGo, if_pos ha,
          List.append_eq, List.append_assoc] <;>
        rw [← List.append_assoc, key]
    · have hu'ne : u' ≠ [] := by
        intro h0
        subst h0
        exact ha (hu a rfl)
      have key := ih r v true hu' (fun _ => hu'ne) hr1 hr2 hv
      cases b with
      | true =>
        simp only [List.cons_append, sanitizeGo, if_neg ha, List.append_eq,
          List.append_assoc]
        rw [← List.append_assoc, key]
      | false =>
        simp only [List.cons_append, sanitizeGo, if_neg ha, List.append_eq,
          List.append_assoc]
        rw [← List.append_assoc, key]

theorem sanitizeList_collapse_run (u r v : List Char)
    (hu : ∀ c, u.getLast? = some c → isWordChar c)
    (hr1 : r ≠ []) (hr2 : ∀ c ∈ r, ¬ isWordChar c)
    (hv : ∀ c, v.head? = some c → isWordChar c) :
    sanitizeList (u ++ r ++ v) = sanitizeList u ++ '_' :: sanitizeList v :=
  sanitizeGo_collapse u r v false hu (fun h => absurd h (by decide)) hr1 hr2 hv

/-! ### Lemmas about field-path splitting of sanitized keys -/

theorem sanitize_no_dot (s : String) : '.' ∉ (sanitize s).toList := by
  intro hmem
  have h1 := sanitizeList_mem_word s.toList '.' hmem
  exact absurd h1 (by decide)

theorem splitDots_no_dot (l : List Char) (h : '.' ∉ l) :
    splitDots l = [l] := by
  induction l with
  | nil => rfl
  | cons c rest ih =>
    have hc : c ≠ '.' := fun h0 => h (h0 ▸ List.mem_cons_self c rest)
    have hrest : '.' ∉ rest := fun h0 => h (List.mem_cons_of_mem c h0)
    simp only [splitDots, if_neg hc]
    rw [ih hrest]

theorem splitDots_append (l₁ l₂ : List Char) (h : '.' ∉ l₁) :
    splitDots (l₁ ++ '.' :: l₂) = l₁ :: splitDots l₂ := by
  induction l₁ with
  | nil => simp [splitDots]
  | cons c rest ih =>
    have hc : c ≠ '.' := fun h0 => h (h0 ▸ List.mem_cons_self c rest)
    have hrest : '.' ∉ rest := fun h0 => h (List.mem_cons_of_mem c h0)
    simp only [List.cons_append, splitDots, if_neg hc, List.append_eq]
    rw [ih hrest]

theorem splitDots_two (l₁ l₂ : List Char) (h1 : '.' ∉ l₁) (h2 : '.' ∉ l₂) :
    splitDots (l₁ ++ '.' :: l₂) = [l₁, l₂] := by
  rw [splitDots_append l₁ l₂ h1, splitDots_no_dot l₂ h2]

theorem asString_toList (s : String) : s.toList.asString = s := rfl

theorem asString_data (s : String) : s.data.asString = s := rfl

theorem splitDotsStr_sanitize (c : String) :
    splitDotsStr (sanitize c) = [sanitize c] := by
  unfold splitDotsStr
  rw [splitDots_no_dot _ (sanitize_no_dot c)]
  simp [asString_data]

theorem splitDotsStr_sanitize_sub (c sub : String) (hsub : '.' ∉ sub.toList)
    (hdot : ("." ++ sub).toList = '.' :: sub.toList) :
    splitDotsStr (sanitize c ++ ("." ++ sub)) = [sanitize c, sub] := by
  unfold splitDotsStr
  have : (sanitize c ++ ("." ++ sub)).toList
      = (sanitize c).toList ++ '.' :: sub.toList := by
    show (sanitize c ++ ("." ++ sub)).data = (sanitize c).data ++ _
    rw [String.data_append]
    exact congrArg _ hdot
  rw [this, splitDots_two _ _ (sanitize_no_dot c) hsub]
  simp [asString_data]

/-! ### Path and update helper lemmas -/

theorem splitDotsStr_course_code (c : String) :
    splitDotsStr (sanitize c ++ ".course_code") = [sanitize c, "course_code"] := by
  rw [show (".course_code" : String) = "." ++ "course_code" from by decide]
  exact splitDotsStr_sanitize_sub c "course_code" (by decide) (by decide)

theorem splitDotsStr_exact_venue (c : String) :
    splitDotsStr (sanitize c ++ ".Exact_Exams_Venue")
      = [sanitize c, "Exact_Exams_Venue"] := by
  rw [show (".Exact_Exams_Venue" : String) = "." ++ "Exact_Exams_Venue"
    from by decide]
  exact splitDotsStr_sanitize_sub c "Exact_Exams_Venue" (by decide) (by decide)

theorem splitDotsStr_no_id_venues (c : String) :
    splitDotsStr (sanitize c ++ ".No_ID_Venues")
      = [sanitize c, "No_ID_Venues"] := by
  rw [show (".No_ID_Venues" : String) = "." ++ "No_ID_Venues" from by decide]
  exact splitDotsStr_sanitize_sub c "No_ID_Venues" (by decide) (by decide)

theorem splitDotsStr_no_dot (k : String) (h : '.' ∉ k.toList) :
    splitDotsStr k = [k] := by
  unfold splitDotsStr
  rw [splitDots_no_dot _ h]
  simp [asString_data]

theorem setPath_single_notdelete (d : FSDoc) (k : String) (v : FSValue)
    (hv : v ≠ FSValue.delete) : setPath d [k] v = setKey d k v := by
  cases v with
  | delete => exact absurd rfl hv
  | null => rfl
  | str s => rfl
  | list l => rfl
  | map m => rfl

theorem setPath_pair (d : FSDoc) (k1 k2 : String) (v : FSValue)
    (hv : v ≠ FSValue.delete) :
    setPath d [k1, k2] v
      = setKey d k1 (FSValue.map (setKey (asMap (alookup d k1)) k2 v)) := by
  show setKey d k1 (FSValue.map (setPath (asMap (alookup d k1)) [k2] v)) = _
  rw [setPath_single_notdelete _ _ _ hv]

theorem docUpdate_pair (store : Store) (uid : String) (doc : FSDoc)
    (path k1 k2 : String) (v : FSValue) (h : alookup store uid = some doc)
    (hsplit : splitDotsStr path = [k1, k2]) (hv : v ≠ FSValue.delete) :
    docUpdate false store uid [(path, v)]
      = .ok (setKey store uid (setKey doc k1
          (FSValue.map (setKey (asMap (alookup doc k1)) k2 v)))) := by
  simp only [docUpdate, Bool.false_eq_true, if_false, h]
  simp only [applyUpdates, List.foldl, hsplit]
  rw [setPath_pair _ _ _ _ hv]

theorem getPath_nil : ∀ segs : List String, getPath [] segs = none := by
  intro segs
  match segs with
  | [] => rfl
  | [k] => rfl
  | k :: k2 :: rest => rfl

/-! ### Claim theorems: sanitization (C4, C8) -/

/-- C4 counterexample: the claim's run-replacement clause is stated over
the ASCII class `[A-Za-z0-9_]`, but the code's `\W` is Unicode-aware.  At
the input `"aéb"`, the character `'é'` lies outside `[A-Za-z0-9_]` between
two characters inside it, yet `re.sub(r'\W+', '_', ·)` — and hence
`sanitize` — leaves the string unchanged instead of producing `"a_b"`,
because `'é'` is a Unicode word character. -/
theorem c4_counterexample :
    isAsciiWordChar 'a' = true
    ∧ isAsciiWordChar 'é' = false
    ∧ isAsciiWordChar 'b' = true
    ∧ sanitize "aéb" = "aéb"
    ∧ sanitize "aéb" ≠ "a_b" := by decide

/-- C4 amended: `sanitize` (`re.sub(r'\W+', '_', s)`) is total — it is a
total computable Lean function on all of `String` — and idempotent:
`sanitize (sanitize s) = sanitize s` for every string; and every maximal
run of characters matched by the Unicode-aware `\W` — characters that are
not in Python's word class `isWordChar` (underscore or Unicode
alphanumeric), not merely characters outside `[A-Za-z0-9_]` — is replaced
by exactly one underscore in the output (a non-empty all-non-word block
whose neighbours, when present, are word characters). -/
theorem c4_sanitize_total_idempotent_collapse :
    (∀ s : String, sanitize (sanitize s) = sanitize s) ∧
    (∀ u r v : List Char,
      (∀ c, u.getLast? = some c → isWordChar c) →
      r ≠ [] → (∀ c ∈ r, ¬ isWordChar c) →
      (∀ c, v.head? = some c → isWordChar c) →
      sanitizeList (u ++ r ++ v) = sanitizeList u ++ '_' :: sanitizeList v) := by
  constructor
  · intro s
    show (sanitizeList ((sanitizeList s.toList).asString).toList).asString = _
    rw [show ((sanitizeList s.toList).asString).toList = sanitizeList s.toList
      from rfl]
    rw [sanitizeList_idem]
    rfl
  · exact sanitizeList_collapse_run

/-- Witness for C4 at concrete inputs: idempotence on a sample label, and
the run `"- "` between `'a'` and `'b'` collapsing to one underscore. -/
theorem c4_witness :
    sanitize (sanitize "AB- cd") = sanitize "AB- cd" ∧
    sanitizeList (['a'] ++ ['-', ' '] ++ ['b'])
      = sanitizeList ['a'] ++ '_' :: sanitizeList ['b'] := by
  refine ⟨c4_sanitize_total_idempotent_collapse.1 "AB- cd",
    c4_sanitize_total_idempotent_collapse.2 ['a'] ['-', ' '] ['b'] ?_ ?_ ?_ ?_⟩
  · intro c hc
    have : c = 'a' := by
      simpa [List.getLast?] using hc.symm
    subst this
    decide
  · decide
  · decide
  · intro c hc
    have : c = 'b' := by
      simpa [List.head?] using hc.symm
    subst this
    decide

/-- C8: `sanitize` on the documented example label produces exactly the
documented key. -/
theorem c8_sanitize_example :
    sanitize "UGBS303 - COMPUTER APPLICATIONS IN MANAGEMENT"
      = "UGBS303_COMPUTER_APPLICATIONS_IN_MANAGEMENT" := by
  decide

/-! ### Claim theorems: upsert (C1) -/

theorem save_exams_details_update (store : Store) (user_id course : String)
    (course_info : FSDoc) (doc : FSDoc)
    (h : alookup store user_id = some doc) :
    save_exams_details false false store user_id course course_info
      = setKey store user_id
          (setKey doc (sanitize course) (FSValue.map course_info)) := by
  simp only [save_exams_details, docGet, docUpdate, if_neg (Bool.false_ne_true),
    Bool.false_eq_true, if_false, h]
  simp only [applyUpdates, List.foldl, splitDotsStr_sanitize, setPath]

theorem save_exams_details_create (store : Store) (user_id course : String)
    (course_info : FSDoc) (h : alookup store user_id = none) :
    save_exams_details false false store user_id course course_info
      = setKey store user_id [(sanitize course, FSValue.map course_info)] := by
  simp only [save_exams_details, docGet, docCreate, Bool.false_eq_true,
    if_false, h]

/-- C1: `save_exams_details` sanitizes the label, then updates the key when
the user's record exists (overwriting only that key) and creates the record
with exactly that key when it does not; in both cases
`get_saved_exams_details` afterwards returns a record mapping the sanitized
key to exactly the supplied entry. -/
theorem c1_save_exams_details_upsert (store : Store) (user_id course : String)
    (course_info : FSDoc) :
    ∃ doc',
      get_saved_exams_details false
          (save_exams_details false false store user_id course course_info)
          user_id = some doc'
      ∧ alookup doc' (sanitize course) = some (FSValue.map course_info)
      ∧ (∀ doc, alookup store user_id = some doc →
          ∀ k, k ≠ sanitize course → alookup doc' k = alookup doc k)
      ∧ (alookup store user_id = none →
          doc' = [(sanitize course, FSValue.map course_info)]) := by
  cases h : alookup store user_id with
  | none =>
    refine ⟨[(sanitize course, FSValue.map course_info)], ?_, ?_, ?_, ?_⟩
    · rw [save_exams_details_create store user_id course course_info h]
      simp [get_saved_exams_details, docGet, alookup_setKey_self]
    · simp [alookup]
    · intro doc hdoc
      simp at hdoc
    · intro
      rfl
  | some doc =>
    refine ⟨setKey doc (sanitize course) (FSValue.map course_info),
      ?_, ?_, ?_, ?_⟩
    · rw [save_exams_details_update store user_id course course_info doc h]
      simp [get_saved_exams_details, docGet, alookup_setKey_self]
    · exact alookup_setKey_self doc (sanitize course) (FSValue.map course_info)
    · intro doc0 hdoc0 k hk
      cases hdoc0
      exact alookup_setKey_ne doc (sanitize course) k (FSValue.map course_info) hk
    · intro h0
      simp at h0

/-- Witness for C1: a concrete update-path run (the user record exists with
another key) obtained by applying the theorem. -/
theorem c1_witness :
    ∃ doc',
      get_saved_exams_details false
          (save_exams_details false false
            [("271330483", [("All_Exams_Venue", FSValue.str "GML")])]
            "271330483" "UGBS303 - COMPUTER APPLICATIONS IN MANAGEMENT"
            [("course_code", FSValue.str "UGBS303")])
          "271330483" = some doc'
      ∧ alookup doc'
            (sanitize "UGBS303 - COMPUTER APPLICATIONS IN MANAGEMENT")
          = some (FSValue.map [("course_code", FSValue.str "UGBS303")])
      ∧ (∀ doc,
          alookup [("271330483", [("All_Exams_Venue", FSValue.str "GML")])]
              "271330483" = some doc →
          ∀ k, k ≠ sanitize "UGBS303 - COMPUTER APPLICATIONS IN MANAGEMENT" →
            alookup doc' k = alookup doc k)
      ∧ (alookup [("271330483", [("All_Exams_Venue", FSValue.str "GML")])]
              "271330483" = none →
          doc' = [(sanitize "UGBS303 - COMPUTER APPLICATIONS IN MANAGEMENT",
            FSValue.map [("course_code", FSValue.str "UGBS303")])]) :=
  c1_save_exams_details_upsert
    [("271330483", [("All_Exams_Venue", FSValue.str "GML")])]
    "271330483" "UGBS303 - COMPUTER APPLICATIONS IN MANAGEMENT"
    [("course_code", FSValue.str "UGBS303")]

/-! ### Claim theorems: empty-list sentinel (C5) -/

theorem getPath_pair (d : FSDoc) (k1 k2 : String) (m : FSDoc)
    (h : alookup d k1 = some (FSValue.map m)) :
    getPath d [k1, k2] = alookup m k2 := by
  simp only [getPath, h]

theorem get_no_id_venues_eval (store : Store) (uid course : String)
    (doc : FSDoc) (h : alookup store uid = some doc) (v : FSValue)
    (hp : getPath doc [sanitize course, "No_ID_Venues"] = some v) :
    get_no_id_venues false store uid course = v := by
  simp only [get_no_id_venues, docGet, Bool.false_eq_true, if_false, h,
    splitDotsStr_no_id_venues, hp]

theorem set_no_id_venues_eval (store : Store) (user_id course : String)
    (doc : FSDoc) (h : alookup store user_id = some doc) (vs : List FSValue) :
    set_no_id_venues false store user_id course vs
      = setKey store user_id (setKey doc (sanitize course)
          (FSValue.map (setKey (asMap (alookup doc (sanitize course)))
            "No_ID_Venues"
            (if vs.length > 0 then FSValue.list vs else FSValue.null)))) := by
  by_cases hvs : vs.length > 0
  · have hupd := docUpdate_pair store user_id doc
      (sanitize course ++ ".No_ID_Venues") (sanitize course) "No_ID_Venues"
      (FSValue.list vs) h (splitDotsStr_no_id_venues course) (by simp)
    simp only [set_no_id_venues, if_pos hvs, hupd]
  · have hupd := docUpdate_pair store user_id doc
      (sanitize course ++ ".No_ID_Venues") (sanitize course) "No_ID_Venues"
      FSValue.null h (splitDotsStr_no_id_venues course) (by simp)
    simp only [set_no_id_venues, if_neg hvs, hupd]

/-- C5: on an existing record, `set_no_id_venues` with an empty sequence
writes an explicit null at `<sanitizedKey>.No_ID_Venues` (not an empty
sequence), and `get_no_id_venues` on that path afterwards returns null;
with a non-empty sequence it writes the sequence itself. -/
theorem c5_set_no_id_venues_empty (store : Store) (user_id course : String)
    (doc : FSDoc) (h : alookup store user_id = some doc) :
    (∃ doc',
      alookup (set_no_id_venues false store user_id course []) user_id
          = some doc'
      ∧ getPath doc' [sanitize course, "No_ID_Venues"] = some FSValue.null
      ∧ get_no_id_venues false
          (set_no_id_venues false store user_id course []) user_id course
          = FSValue.null)
    ∧ (∀ vs : List FSValue, vs ≠ [] →
        ∃ doc'',
          alookup (set_no_id_venues false store user_id course vs) user_id
              = some doc''
          ∧ getPath doc'' [sanitize course, "No_ID_Venues"]
              = some (FSValue.list vs)) := by
  constructor
  · refine ⟨setKey doc (sanitize course)
      (FSValue.map (setKey (asMap (alookup doc (sanitize course)))
        "No_ID_Venues" FSValue.null)), ?_, ?_, ?_⟩
    · rw [set_no_id_venues_eval store user_id course doc h []]
      simpa using alookup_setKey_self store user_id _
    · rw [getPath_pair _ _ _ _ (alookup_setKey_self _ _ _)]
      exact alookup_setKey_self _ _ _
    · refine get_no_id_venues_eval _ _ _
        (setKey doc (sanitize course)
          (FSValue.map (setKey (asMap (alookup doc (sanitize course)))
            "No_ID_Venues" FSValue.null))) ?_ FSValue.null ?_
      · rw [set_no_id_venues_eval store user_id course doc h []]
        simpa using alookup_setKey_self store user_id _
      · rw [getPath_pair _ _ _ _ (alookup_setKey_self _ _ _)]
        exact alookup_setKey_self _ _ _
  · intro vs hvs
    have hlen : vs.length > 0 := List.length_pos.mpr hvs
    refine ⟨setKey doc (sanitize course)
      (FSValue.map (setKey (asMap (alookup doc (sanitize course)))
        "No_ID_Venues" (FSValue.list vs))), ?_, ?_⟩
    · rw [set_no_id_venues_eval store user_id course doc h vs]
      rw [if_pos hlen]
      exact alookup_setKey_self store user_id _
    · rw [getPath_pair _ _ _ _ (alookup_setKey_self _ _ _)]
      exact alookup_setKey_self _ _ _

/-- Witness for C5 on a concrete store whose user record exists. -/
theorem c5_witness :
    alookup [("271330483", [("X", FSValue.str "1")])] "271330483"
        = some [("X", FSValue.str "1")]
    ∧ ((∃ doc',
        alookup (set_no_id_venues false
            [("271330483", [("X", FSValue.str "1")])] "271330483" "CS - 101" [])
            "271330483" = some doc'
        ∧ getPath doc' [sanitize "CS - 101", "No_ID_Venues"]
            = some FSValue.null
        ∧ get_no_id_venues false
            (set_no_id_venues false
              [("271330483", [("X", FSValue.str "1")])] "271330483"
              "CS - 101" [])
            "271330483" "CS - 101" = FSValue.null)
      ∧ (∀ vs : List FSValue, vs ≠ [] →
          ∃ doc'',
            alookup (set_no_id_venues false
                [("271330483", [("X", FSValue.str "1")])] "271330483"
                "CS - 101" vs)
                "271330483" = some doc''
            ∧ getPath doc'' [sanitize "CS - 101", "No_ID_Venues"]
                = some (FSValue.list vs))) :=
  ⟨rfl, c5_set_no_id_venues_empty
    [("271330483", [("X", FSValue.str "1")])] "271330483" "CS - 101"
    [("X", FSValue.str "1")] rfl⟩

/-! ### Claim theorems: whole-record deletion (C6) -/

theorem deleteLoop_alookup (user_id : String) :
    ∀ (keys : List String) (store : Store) (doc : FSDoc),
      alookup store user_id = some doc →
      (∀ k ∈ keys, splitDotsStr k = [k]) →
      alookup (deleteLoop false store user_id keys).1 user_id
        = some (keys.foldl (fun d k => eraseKey d k) doc) := by
  intro keys
  induction keys with
  | nil =>
    intro store doc h _
    simpa [deleteLoop] using h
  | cons k ks ih =>
    intro store doc h hsplit
    have hupd : docUpdate false store user_id [(k, FSValue.delete)]
        = .ok (setKey store user_id (eraseKey doc k)) := by
      simp only [docUpdate, Bool.false_eq_true, if_false, h]
      simp only [applyUpdates, List.foldl,
        hsplit k (List.mem_cons_self k ks)]
      rfl
    simp only [deleteLoop, hupd, List.foldl]
    exact ih (setKey store user_id (eraseKey doc k)) (eraseKey doc k)
      (alookup_setKey_self store user_id _)
      (fun k2 hk2 => hsplit k2 (List.mem_cons_of_mem k hk2))

theorem foldl_eraseKey_none (k : String) :
    ∀ (keys : List String) (d : FSDoc), alookup d k = none →
      alookup (keys.foldl (fun d k => eraseKey d k) d) k = none := by
  intro keys
  induction keys with
  | nil => intro d h; simpa using h
  | cons k2 ks ih =>
    intro d h
    exact ih (eraseKey d k2) (alookup_eraseKey_none d k k2 h)

theorem foldl_eraseKey_mem :
    ∀ (keys : List String) (d : FSDoc) (k : String), k ∈ keys →
      alookup (keys.foldl (fun d k => eraseKey d k) d) k = none := by
  intro keys
  induction keys with
  | nil => intro d k hk; exact absurd hk (List.not_mem_nil k)
  | cons k2 ks ih =>
    intro d k hk
    rcases List.mem_cons.mp hk with h1 | h1
    · subst h1
      exact foldl_eraseKey_none k ks (eraseKey d k)
        (alookup_eraseKey_self d k)
    · exact ih (eraseKey d k2) k h1

/-- C6: `delete_exams_details` reads the whole record; if it is absent it
is a no-op; otherwise it issues one `DELETE_FIELD` update per top-level key
(course keys and non-course keys such as `All_Exams_Venue` alike), after
which none of those keys remain.  The keys written by this module contain
no `'.'`, which the second part assumes (a dotted key would be interpreted
as a nested field path by the store). -/
theorem c6_delete_exams_details (store : Store) (user_id : String) :
    (alookup store user_id = none →
      delete_exams_details false false store user_id = store)
    ∧ (∀ doc, alookup store user_id = some doc →
        (∀ k ∈ doc.map Prod.fst, '.' ∉ k.toList) →
        ∃ doc',
          alookup (delete_exams_details false false store user_id) user_id
              = some doc'
          ∧ ∀ k ∈ doc.map Prod.fst, alookup doc' k = none) := by
  constructor
  · intro h
    simp [delete_exams_details, get_saved_exams_details, docGet, h]
  · intro doc hdoc hkeys
    have hsplit : ∀ k ∈ doc.map Prod.fst, splitDotsStr k = [k] :=
      fun k hk => splitDotsStr_no_dot k (hkeys k hk)
    by_cases hemp : doc.isEmpty
    · have hnil : doc = [] := by
        cases doc with
        | nil => rfl
        | cons p rest => simp [List.isEmpty] at hemp
      refine ⟨doc, ?_, ?_⟩
      · simp [delete_exams_details, get_saved_exams_details, docGet, hdoc,
          hemp]
      · subst hnil
        intro k hk
        simp at hk
    · refine ⟨(doc.map Prod.fst).foldl (fun d k => eraseKey d k) doc, ?_, ?_⟩
      · have : delete_exams_details false false store user_id
            = (deleteLoop false store user_id (doc.map Prod.fst)).1 := by
          simp [delete_exams_details, get_saved_exams_details, docGet, hdoc,
            hemp]
        rw [this]
        exact deleteLoop_alookup user_id (doc.map Prod.fst) store doc hdoc
          hsplit
      · intro k hk
        exact foldl_eraseKey_mem (doc.map Prod.fst) doc k hk

/-- Witness for C6 on a record holding one course key and
`All_Exams_Venue`: both keys vanish. -/
theorem c6_witness :
    alookup [("271330483",
        [("UGBS303_X", FSValue.str "a"), ("All_Exams_Venue", FSValue.str "v")])]
        "271330483"
      = some [("UGBS303_X", FSValue.str "a"),
          ("All_Exams_Venue", FSValue.str "v")]
    ∧ (∀ k ∈ ([("UGBS303_X", FSValue.str "a"),
          ("All_Exams_Venue", FSValue.str "v")] : FSDoc).map Prod.fst,
        '.' ∉ k.toList)
    ∧ ∃ doc',
        alookup (delete_exams_details false false
            [("271330483",
              [("UGBS303_X", FSValue.str "a"),
               ("All_Exams_Venue", FSValue.str "v")])]
            "271330483") "271330483" = some doc'
        ∧ ∀ k ∈ ([("UGBS303_X", FSValue.str "a"),
            ("All_Exams_Venue", FSValue.str "v")] : FSDoc).map Prod.fst,
            alookup doc' k = none :=
  ⟨rfl, by decide,
    (c6_delete_exams_details
      [("271330483",
        [("UGBS303_X", FSValue.str "a"), ("All_Exams_Venue", FSValue.str "v")])]
      "271330483").2
      [("UGBS303_X", FSValue.str "a"), ("All_Exams_Venue", FSValue.str "v")]
      rfl (by decide)⟩

/-! ### Claim theorems: absent reads (C7) -/

/-- C7: `get_course_code` and `get_saved_exams_details` on a non-existent
user id return null/absent and never raise; `get_course_code` on an
existing record whose field path is missing also returns null (the
client's `KeyError` is caught by the `except Exception` handler). -/
theorem c7_get_absent (store : Store) (user_id course : String) :
    (alookup store user_id = none →
      get_course_code false store user_id course = FSValue.null
      ∧ get_saved_exams_details false store user_id = none)
    ∧ (∀ doc, alookup store user_id = some doc →
        getPath doc (splitDotsStr (sanitize course ++ ".course_code"))
          = none →
        get_course_code false store user_id course = FSValue.null) := by
  constructor
  · intro h
    constructor
    · simp [get_course_code, docGet, h]
    · simp [get_saved_exams_details, docGet, h]
  · intro doc hdoc hpath
    simp [get_course_code, docGet, hdoc, hpath]

/-- Witness for C7: a store with one empty record; the reads on an unknown
user id and the read on an existing record without the path both return
null/absent. -/
theorem c7_witness :
    get_course_code false [("u", ([] : FSDoc))] "v" "CS - 101" = FSValue.null
    ∧ get_saved_exams_details false [("u", ([] : FSDoc))] "v" = none
    ∧ get_course_code false [("u", ([] : FSDoc))] "u" "CS - 101"
        = FSValue.null :=
  ⟨((c7_get_absent [("u", [])] "v" "CS - 101").1 rfl).1,
   ((c7_get_absent [("u", [])] "v" "CS - 101").1 rfl).2,
   (c7_get_absent [("u", [])] "u" "CS - 101").2 [] rfl (getPath_nil _)⟩

/-! ### Claim theorems: exception swallowing (C3) -/

/-- C3 counterexample: `get_exact_venue` catches only `KeyError`, so a
transport/store failure in `doc_ref.get()` (here injected on an empty
store at a concrete input) escapes to the caller as an uncaught
exception — the claim that no store exception ever propagates is false. -/
theorem c3_counterexample :
    get_exact_venue true [] "271330483" "UGBS303"
      = Except.error PyExc.transportErr := rfl

/-- C3 amended: every Document Field Adapter operation except
`get_exact_venue` catches all store exceptions and converts them to
absent/failure returns (shown here with an injected transport failure on
the first store call of each operation), while `get_exact_venue` catches
only `KeyError` — a missing field path is converted to null, but a
transport failure propagates to the caller. -/
theorem c3_amended_exception_policy (store : Store)
    (user_id course : String) (vs : List FSValue) (entry : FSDoc)
    (v : FSValue) (fW : Bool) :
    get_course_code true store user_id course = FSValue.null
    ∧ set_course_code true store user_id course v = store
    ∧ get_saved_exams_details true store user_id = none
    ∧ save_exams_details true fW store user_id course entry = store
    ∧ get_exams_venue true store user_id = FSValue.null
    ∧ set_exact_venue true store user_id course v = store
    ∧ set_no_id_venues true store user_id course vs = store
    ∧ get_no_id_venues true store user_id course = FSValue.null
    ∧ delete_exams_details true false store user_id = store
    ∧ get_exact_venue false [("u", ([] : FSDoc))] "u" course
        = Except.ok FSValue.null
    ∧ get_exact_venue true store user_id course
        = Except.error PyExc.transportErr := by
  refine ⟨rfl, rfl, rfl, rfl, rfl, rfl, ?_, rfl, rfl, ?_, rfl⟩
  · simp [set_no_id_venues, docUpdate]
  · simp [get_exact_venue, docGet, alookup, getPath_nil]

/-! ### Claim theorems: blob lifecycle (C2, C9, C10) -/

theorem publicUrl_ne_empty (path : String) : publicUrl path ≠ "" := by
  intro h0
  have hdata : (publicUrl path).data = [] := congrArg String.data h0
  rw [publicUrl, String.data_append] at hdata
  have := (List.append_eq_nil.mp hdata).1
  exact absurd this (by decide)

theorem not_mem_removeFile_self (l : List String) (p : String) :
    p ∉ removeFile l p := by
  induction l with
  | nil => simp [removeFile]
  | cons f rest ih =>
    by_cases hf : f = p
    · simpa [removeFile, hf] using ih
    · simp only [removeFile, if_neg hf]
      intro hmem
      rcases List.mem_cons.mp hmem with h1 | h1
      · exact hf h1.symm
      · exact ih h1

theorem uploadArtifact_lifecycle (ns : String) (failUpload failPublic : Bool)
    (w : BlobWorld) (lp rn : String) (h : lp ∈ w.localFiles) :
    (failUpload = true ∨ failPublic = true →
      (uploadArtifact ns failUpload failPublic w lp rn).2 = none
      ∧ lp ∈ (uploadArtifact ns failUpload failPublic w lp rn).1.localFiles)
    ∧ (failUpload = false → failPublic = false →
      (uploadArtifact ns failUpload failPublic w lp rn).2
        = some (publicUrl (ns ++ "/" ++ rn))
      ∧ publicUrl (ns ++ "/" ++ rn) ≠ ""
      ∧ lp ∉ (uploadArtifact ns failUpload failPublic w lp rn).1.localFiles
      ∧ alookup (uploadArtifact ns failUpload failPublic w lp rn).1.remote
          (ns ++ "/" ++ rn) = some true) := by
  constructor
  · intro hfail
    cases failUpload with
    | true => exact ⟨rfl, h⟩
    | false =>
      cases failPublic with
      | false => simp at hfail
      | true =>
        simp only [uploadArtifact, Bool.false_eq_true, if_false, if_pos h,
          if_true]
        exact ⟨trivial, h⟩
  · intro hU hP
    subst hU
    subst hP
    simp only [uploadArtifact, Bool.false_eq_true, if_false, if_pos h]
    refine ⟨trivial, publicUrl_ne_empty _, ?_, ?_⟩
    · exact not_mem_removeFile_self _ _
    · exact alookup_setKey_self _ _ _

/-- C2: both upload functions delete the local file only after upload,
make-public and URL retrieval all succeeded.  With the local file present:
on an injected failure of the upload or make-public step the result is
`None` and the local file still exists; with no failure the result is the
object's (non-empty) public URL, the remote object exists and is public,
and the local file is gone. -/
theorem c2_upload_lifecycle (failUpload failPublic : Bool) (w : BlobWorld)
    (local_file_path remote_file_name : String)
    (h : local_file_path ∈ w.localFiles) :
    ((failUpload = true ∨ failPublic = true →
      (upload_screenshot_to_firebase failUpload failPublic w
        local_file_path remote_file_name).2 = none
      ∧ local_file_path ∈ (upload_screenshot_to_firebase failUpload
          failPublic w local_file_path remote_file_name).1.localFiles)
    ∧ (failUpload = false → failPublic = false →
      (upload_screenshot_to_firebase failUpload failPublic w
          local_file_path remote_file_name).2
        = some (publicUrl ("screenshots/" ++ remote_file_name))
      ∧ publicUrl ("screenshots/" ++ remote_file_name) ≠ ""
      ∧ local_file_path ∉ (upload_screenshot_to_firebase failUpload
          failPublic w local_file_path remote_file_name).1.localFiles
      ∧ alookup (upload_screenshot_to_firebase failUpload failPublic w
          local_file_path remote_file_name).1.remote
          ("screenshots/" ++ remote_file_name) = some true))
    ∧ ((failUpload = true ∨ failPublic = true →
      (upload_calendar_to_firebase failUpload failPublic w
        local_file_path remote_file_name).2 = none
      ∧ local_file_path ∈ (upload_calendar_to_firebase failUpload
          failPublic w local_file_path remote_file_name).1.localFiles)
    ∧ (failUpload = false → failPublic = false →
      (upload_calendar_to_firebase failUpload failPublic w
          local_file_path remote_file_name).2
        = some (publicUrl ("calendars/" ++ remote_file_name))
      ∧ publicUrl ("calendars/" ++ remote_file_name) ≠ ""
      ∧ local_file_path ∉ (upload_calendar_to_firebase failUpload
          failPublic w local_file_path remote_file_name).1.localFiles
      ∧ alookup (upload_calendar_to_firebase failUpload failPublic w
          local_file_path remote_file_name).1.remote
          ("calendars/" ++ remote_file_name) = some true)) :=
  ⟨uploadArtifact_lifecycle "screenshots" failUpload failPublic w
      local_file_path remote_file_name h,
   uploadArtifact_lifecycle "calendars" failUpload failPublic w
      local_file_path remote_file_name h⟩

/-- Witness for C2 at a concrete world holding the local file, applying the
theorem with the fault-free flags. -/
theorem c2_witness :
    "shot.png" ∈ (BlobWorld.mk ["shot.png"] []).localFiles
    ∧ (upload_screenshot_to_firebase false false
          (BlobWorld.mk ["shot.png"] []) "shot.png" "r.png").2
        = some (publicUrl ("screenshots/" ++ "r.png"))
    ∧ "shot.png" ∉ (upload_screenshot_to_firebase false false
          (BlobWorld.mk ["shot.png"] []) "shot.png" "r.png").1.localFiles
    ∧ (upload_calendar_to_firebase false false
          (BlobWorld.mk ["shot.png"] []) "shot.png" "r.png").2
        = some (publicUrl ("calendars/" ++ "r.png")) :=
  ⟨List.mem_cons_self "shot.png" [],
   ((c2_upload_lifecycle false false (BlobWorld.mk ["shot.png"] [])
      "shot.png" "r.png" (List.mem_cons_self "shot.png" [])).1.2
      rfl rfl).1,
   ((c2_upload_lifecycle false false (BlobWorld.mk ["shot.png"] [])
      "shot.png" "r.png" (List.mem_cons_self "shot.png" [])).1.2
      rfl rfl).2.2.1,
   ((c2_upload_lifecycle false false (BlobWorld.mk ["shot.png"] [])
      "shot.png" "r.png" (List.mem_cons_self "shot.png" [])).2.2
      rfl rfl).1⟩

/-- C9: `delete_from_firebase_storage` never raises; when the object at
`screenshots/<remote>` does not exist, the store's error is caught and the
call is a no-op on the world. -/
theorem c9_delete_missing_noop (fail : Bool) (w : BlobWorld)
    (remote_file_name : String)
    (h : alookup w.remote ("screenshots/" ++ remote_file_name) = none) :
    delete_from_firebase_storage fail w remote_file_name = w := by
  cases fail with
  | true => rfl
  | false => simp [delete_from_firebase_storage, h]

/-- Witness for C9 at an empty remote store. -/
theorem c9_witness :
    alookup (BlobWorld.mk [] []).remote ("screenshots/" ++ "x.png") = none
    ∧ delete_from_firebase_storage false (BlobWorld.mk [] []) "x.png"
        = BlobWorld.mk [] [] :=
  ⟨rfl, c9_delete_missing_noop false (BlobWorld.mk [] []) "x.png" rfl⟩

/-- C10: the two upload functions are the same algorithm up to the
namespace prefix: each equals the spec-level `uploadArtifact` at its
namespace (`screenshots` vs `calendars`), on every input — same effects
(upload, make public, delete local file) and same returned result. -/
theorem c10_upload_functions_equiv (failUpload failPublic : Bool)
    (w : BlobWorld) (local_file_path remote_file_name : String) :
    upload_screenshot_to_firebase failUpload failPublic w
        local_file_path remote_file_name
      = uploadArtifact "screenshots" failUpload failPublic w
          local_file_path remote_file_name
    ∧ upload_calendar_to_firebase failUpload failPublic w
        local_file_path remote_file_name
      = uploadArtifact "calendars" failUpload failPublic w
          local_file_path remote_file_name :=
  ⟨rfl, rfl⟩

end FirebaseFunctions
